import Mathlib

/-!
Verification of the Pivot & Bucketing Engine (`pivot_engine.py`).

The engine is embedded shallowly:
* a column ("series") of a numeric dimension is `List (Option ℚ)`, where `none`
  is a missing value (NaN);
* a bucketed column is `List (Option Label)`: `pd.cut` produces interval or
  string labels, `none` marks a value falling in no bucket;
* a record table is `List Row`, with the two chosen axis columns projected to
  `xval`/`yval` and the metric backing fields carried alongside;
* operations that can raise a Python exception return `Option`;
* floating-point special values produced by the comparator division are
  modelled by `PFloat` (rational value, two infinities, NaN).
-/

/-- Bucket labels: a raw numeric value passed through unbucketed, a
half-open interval produced by `pd.cut`, or a string label. -/
inductive Label where
  | num (q : ℚ)
  | ivl (lo hi : ℚ)
  | str (s : String)
deriving DecidableEq

/-- A numeric column; `none` is a missing value (NaN). -/
abbrev Series := List (Option ℚ)

/-- A column after bucketing. -/
abbrev BSeries := List (Option Label)

/-- A column passed through unchanged (no bucketing applied). -/
def numS (s : Series) : BSeries := s.map (Option.map Label.num)

/-- One step of interval search for `pd.cut`: `il` states that the current
interval is the first one and `include_lowest` was requested, so its lower
edge is closed. Intervals are otherwise left-open right-closed. -/
def cutIvlGo (il : Bool) (lo : ℚ) (rest : List ℚ) (v : ℚ) : Option Label :=
  match rest with
  | [] => none
  | hi :: t =>
    if (if il then lo ≤ v else lo < v) ∧ v ≤ hi then some (Label.ivl lo hi)
    else cutIvlGo false hi t v

/-- `pd.cut` with explicit edges and no labels: the bucket of `v` as an
interval label, `none` when `v` lies outside every interval. -/
def cutIvl (il : Bool) (edges : List ℚ) (v : ℚ) : Option Label :=
  match edges with
  | [] => none
  | e :: t => cutIvlGo il e t v

/-- Interval search returning the bucket index instead of the interval. -/
def cutIdxGo (il : Bool) (lo : ℚ) (rest : List ℚ) (v : ℚ) : Option ℕ :=
  match rest with
  | [] => none
  | hi :: t =>
    if (if il then lo ≤ v else lo < v) ∧ v ≤ hi then some 0
    else (cutIdxGo false hi t v).map (· + 1)

/-- Index form of `pd.cut` with finite edges. -/
def cutIdx (il : Bool) (edges : List ℚ) (v : ℚ) : Option ℕ :=
  match edges with
  | [] => none
  | e :: t => cutIdxGo il e t v

/-- Edge of a cut where `none` stands for `float('inf')` as used by the
registry bins such as `[0, 100, 500, float('inf')]`. -/
abbrev Edge := Option ℚ

/-- Interval search over edges whose last edge may be `float('inf')`. -/
def cutIdxGoE (il : Bool) (lo : ℚ) (rest : List Edge) (v : ℚ) : Option ℕ :=
  match rest with
  | [] => none
  | some hi :: t =>
    if (if il then lo ≤ v else lo < v) ∧ v ≤ hi then some 0
    else (cutIdxGoE false hi t v).map (· + 1)
  | none :: _ =>
    if (if il then lo ≤ v else lo < v) then some 0 else none

/-- Index form of `pd.cut` where the top edge may be infinite. -/
def cutIdxE (il : Bool) (edges : List Edge) (v : ℚ) : Option ℕ :=
  match edges with
  | some e :: t => cutIdxGoE il e t v
  | _ => none

/-- Finite bin edges, as written in `bucket_definitions`. -/
def mkE (l : List ℚ) : List Edge := l.map some

/-- Bin edges ending in `float('inf')`. -/
def mkEInf (l : List ℚ) : List Edge := l.map some ++ [none]

/-- A registry strategy of the form `pd.cut(x, bins=..., labels=...)`:
total on a numeric series, hence always `some`. -/
def cutNamed (edges : List Edge) (labels : List String) (s : Series) :
    Option BSeries :=
  some (s.map fun x =>
    x.bind fun v => (cutIdxE false edges v).bind fun i =>
      (labels.get? i).map Label.str)

/-- Insert into a sorted list of rationals. -/
def insortQ (v : ℚ) : List ℚ → List ℚ
  | [] => [v]
  | x :: xs => if v ≤ x then v :: x :: xs else x :: insortQ v xs

/-- Ascending sort of a list of rationals. -/
def sortQ (l : List ℚ) : List ℚ := l.foldr insortQ []

/-- Linear-interpolation quantile of an ascending list, as computed by
`Series.quantile` with the default interpolation. -/
def quantileLin (sorted : List ℚ) (p : ℚ) : ℚ :=
  match sorted with
  | [] => 0
  | _ :: _ =>
    let n := sorted.length
    let h := p * ((n : ℚ) - 1)
    let i := (Int.floor h).toNat
    let g := h - ((Int.floor h : ℤ) : ℚ)
    match sorted.get? i, sorted.get? (i + 1) with
    | some a, some b => a + g * (b - a)
    | some a, none => a
    | none, _ => 0

/-- Drop adjacent duplicate edges, the effect of `duplicates='drop'` on the
ascending quantile edges of `pd.qcut`. -/
def dedupAdj : List ℚ → List ℚ
  | [] => []
  | [x] => [x]
  | x :: y :: t => if x = y then dedupAdj (y :: t) else x :: dedupAdj (y :: t)

/-- Boolean test that a list of edges is strictly ascending; `pd.cut` raises
`ValueError` otherwise. -/
def strictAsc : List ℚ → Bool
  | [] => true
  | [_] => true
  | x :: y :: t => decide (x < y) && strictAsc (y :: t)

/-- `pd.qcut(series, q, labels=labels, duplicates='drop')`: quantile edges
with linear interpolation, adjacent duplicates dropped, then a cut whose
lowest edge is included.  `none` models the `ValueError` raised when the
label count does not match the surviving bins, or when there is no valid
data to take quantiles of. -/
def qcutL (s : Series) (q : ℕ) (labels : List String) : Option BSeries :=
  let valid := s.filterMap id
  if valid.isEmpty then none
  else
    let sorted := sortQ valid
    let edges := (List.range (q + 1)).map fun i =>
      quantileLin sorted ((i : ℚ) / (q : ℚ))
    let bins := dedupAdj edges
    if labels.length + 1 = bins.length then
      some (s.map fun x =>
        x.bind fun v => (cutIdx true bins v).bind fun i =>
          (labels.get? i).map Label.str)
    else none

/-- Leading run of decimal digits of a character list, with the rest. -/
def takeDigits : List Char → List Char × List Char
  | [] => ([], [])
  | c :: t =>
    if c.isDigit then
      let p := takeDigits t
      (c :: p.1, p.2)
    else ([], c :: t)

/-- Numeric value of a run of decimal digits. -/
def digitsVal (ds : List Char) : ℕ :=
  ds.foldl (fun a c => a * 10 + (c.toNat - 48)) 0

/-- Python `float(token)` on the decimal forms used for bucket boundaries:
optional sign, integer and fractional digit runs, optional exponent.
`none` models the `ValueError` on anything else. -/
def parseFloat (t : String) : Option ℚ :=
  let cs0 := t.data
  let sp : ℚ × List Char :=
    match cs0 with
    | '-' :: r => (-1, r)
    | '+' :: r => (1, r)
    | _ => (1, cs0)
  let ipr := takeDigits sp.2
  let fpr : List Char × List Char :=
    match ipr.2 with
    | '.' :: r => takeDigits r
    | _ => ([], ipr.2)
  if ipr.1.isEmpty ∧ fpr.1.isEmpty then none
  else
    let mant : ℚ :=
      (digitsVal ipr.1 : ℚ) + (digitsVal fpr.1 : ℚ) / (10 : ℚ) ^ fpr.1.length
    match fpr.2 with
    | [] => some (sp.1 * mant)
    | e :: r =>
      if e = 'e' ∨ e = 'E' then
        let esr : ℤ × List Char :=
          match r with
          | '-' :: r2 => (-1, r2)
          | '+' :: r2 => (1, r2)
          | _ => (1, r)
        let edr := takeDigits esr.2
        if edr.1.isEmpty ∨ ¬ edr.2.isEmpty then none
        else some (sp.1 * mant * (10 : ℚ) ^ (esr.1 * (digitsVal edr.1 : ℤ)))
      else none

/-- Civil date (year, month, day) from days since the Unix epoch,
mirroring the calendar arithmetic behind `pd.to_datetime(...).dt`. -/
def civilFromDays (z0 : ℤ) : ℤ × ℤ × ℤ :=
  let z := z0 + 719468
  let era := Int.tdiv (if 0 ≤ z then z else z - 146096) 146097
  let doe := z - era * 146097
  let yoe := Int.tdiv (doe - Int.tdiv doe 1460 + Int.tdiv doe 36524 - Int.tdiv doe 146096) 365
  let y := yoe + era * 400
  let doy := doe - (365 * yoe + Int.tdiv yoe 4 - Int.tdiv yoe 100)
  let mp := Int.tdiv (5 * doy + 2) 153
  let d := doy - Int.tdiv (153 * mp + 2) 5 + 1
  let m := mp + (if mp < 10 then 3 else -9)
  (y + (if m ≤ 2 then 1 else 0), m, d)

/-- Days since the Unix epoch of a numeric timestamp in nanoseconds, the
interpretation `pd.to_datetime` gives a numeric column. -/
def nsToDay (v : ℚ) : ℤ := Int.floor (v / 86400000000000)

/-- Two-digit zero-padded rendering of a month or day number. -/
def pad2 (n : ℤ) : String := if n < 10 then "0" ++ toString n else toString n

/-- ISO `YYYY-MM-DD` rendering of a day count. -/
def dateStr (z : ℤ) : String :=
  let c := civilFromDays z
  toString c.1 ++ "-" ++ pad2 c.2.1 ++ "-" ++ pad2 c.2.2

/-- Registry strategy `'By Year'` for `signup_date`. -/
def byYear (v : ℚ) : Label := Label.str (toString (civilFromDays (nsToDay v)).1)

/-- Registry strategy `'By Month'` for `signup_date` (`Period('M')` text). -/
def byMonth (v : ℚ) : Label :=
  let c := civilFromDays (nsToDay v)
  Label.str (toString c.1 ++ "-" ++ pad2 c.2.1)

/-- Registry strategy `'By Quarter'` for `signup_date` (`Period('Q')` text). -/
def byQuarter (v : ℚ) : Label :=
  let c := civilFromDays (nsToDay v)
  Label.str (toString c.1 ++ "Q" ++ toString (Int.tdiv (c.2.1 - 1) 3 + 1))

/-- Registry strategy `'By Week'` for `signup_date`: the Monday-to-Sunday
period containing the day, rendered as `start/end` like `Period('W')`. -/
def byWeek (v : ℚ) : Label :=
  let z := nsToDay v
  let st := z - Int.emod (z + 3) 7
  Label.str (dateStr st ++ "/" ++ dateStr (st + 6))

/-- A date-based registry strategy lifted to a series; always succeeds. -/
def dateMap (f : ℚ → Label) (s : Series) : Option BSeries :=
  some (s.map (Option.map f))

/-- The quartile labels shared by the `'Quartiles'` strategies. -/
def quartileLabels : List String := ["Q1 (Bottom 25%)", "Q2", "Q3", "Q4 (Top 25%)"]

/-- The `self.bucket_definitions` registry built in `PivotEngine.__init__`:
dimension name, then strategy name, to the binning function.  `none` when the
pair is not registered. -/
def bucketDefinitions (dim strat : String) : Option (Series → Option BSeries) :=
  if dim = "age" then
    if strat = "Young/Old" then
      some (cutNamed (mkE [0, 35, 100]) ["Young (18-35)", "Mature (35+)"])
    else if strat = "Three Groups" then
      some (cutNamed (mkE [0, 25, 45, 100]) ["18-25", "26-45", "46+"])
    else if strat = "Fine Grained" then
      some (cutNamed (mkE [0, 20, 25, 35, 50, 100]) ["18-20", "21-25", "26-35", "36-50", "50+"])
    else none
  else if dim = "days_since_signup" then
    if strat = "New/Established" then
      some (cutNamed (mkE [0, 90, 10000]) ["New (0-90 days)", "Established (90+ days)"])
    else if strat = "Quarterly" then
      some (cutNamed (mkE [0, 90, 180, 365, 10000]) ["0-3 months", "3-6 months", "6-12 months", "1+ years"])
    else if strat = "Monthly" then
      some (cutNamed (mkE [0, 30, 60, 90, 180, 365, 10000]) ["0-1 month", "1-2 months", "2-3 months", "3-6 months", "6-12 months", "1+ years"])
    else none
  else if dim = "days_since_last_purchase" then
    if strat = "Recent/Lapsed" then
      some (cutNamed (mkE [0, 30, 10000]) ["Recent (0-30 days)", "Lapsed (30+ days)"])
    else if strat = "Recency Groups" then
      some (cutNamed (mkE [0, 7, 30, 90, 10000]) ["0-7 days", "8-30 days", "31-90 days", "90+ days"])
    else if strat = "Weekly" then
      some (cutNamed (mkE [0, 7, 14, 21, 30, 60, 90, 10000]) ["0-1 week", "1-2 weeks", "2-3 weeks", "3-4 weeks", "1-2 months", "2-3 months", "3+ months"])
    else none
  else if dim = "signup_date" then
    if strat = "By Year" then some (dateMap byYear)
    else if strat = "By Month" then some (dateMap byMonth)
    else if strat = "By Quarter" then some (dateMap byQuarter)
    else if strat = "By Week" then some (dateMap byWeek)
    else none
  else if dim = "total_revenue" then
    if strat = "Low/Medium/High" then
      some (cutNamed (mkEInf [0, 100, 500]) ["Low (<$100)", "Medium ($100-500)", "High ($500+)"])
    else if strat = "Quartiles" then some (fun s => qcutL s 4 quartileLabels)
    else if strat = "Detailed" then
      some (cutNamed (mkEInf [0, 50, 100, 250, 500, 1000]) ["<$50", "$50-100", "$100-250", "$250-500", "$500-1000", "$1000+"])
    else none
  else if dim = "ltv" then
    if strat = "Low/Medium/High" then
      some (cutNamed (mkEInf [0, 200, 1000]) ["Low (<$200)", "Medium ($200-1000)", "High ($1000+)"])
    else if strat = "Quartiles" then some (fun s => qcutL s 4 quartileLabels)
    else if strat = "Detailed" then
      some (cutNamed (mkEInf [0, 100, 250, 500, 1000, 2000]) ["<$100", "$100-250", "$250-500", "$500-1000", "$1000-2000", "$2000+"])
    else none
  else if dim = "total_orders" then
    if strat = "Low/Medium/High" then
      some (cutNamed (mkEInf [0, 2, 10]) ["Low (0-2)", "Medium (3-10)", "High (10+)"])
    else if strat = "Detailed" then
      some (cutNamed (mkEInf [0, 1, 3, 5, 10, 20]) ["0-1", "2-3", "4-5", "6-10", "11-20", "20+"])
    else none
  else none

/-- Split a character list at every comma, as `custom_ranges.split(',')`
does. -/
def splitCommas : List Char → List (List Char)
  | [] => [[]]
  | c :: t =>
    if c = ',' then [] :: splitCommas t
    else
      match splitCommas t with
      | h :: r => (c :: h) :: r
      | [] => [[c]]

/-- Strip leading and trailing whitespace, as `x.strip()` does. -/
def trimChars (cs : List Char) : List Char :=
  ((cs.dropWhile Char.isWhitespace).reverse.dropWhile Char.isWhitespace).reverse

/-- Comma-separated tokens of a custom-range string, each stripped. -/
def tokensOf (cr : String) : List String :=
  (splitCommas cr.data).map (fun cs => String.mk (trimChars cs))

/-- Parse every token as a float, or fail as the list comprehension
`[float(x) for x in ranges]` does. -/
def allFloats : List String → Option (List ℚ)
  | [] => some []
  | t :: ts =>
    match parseFloat t, allFloats ts with
    | some v, some vs => some (v :: vs)
    | _, _ => none

/-- Python truthiness of the `custom_ranges` argument: `None` and the empty
string are falsy. -/
def crTruthy : Option String → Bool
  | none => false
  | some c => decide (c ≠ "")

/-- The try-block of `_apply_custom_bucketing`.  `none` covers both the
fall-through `return series` (no comma, too few tokens) and every exception
caught by the surrounding handlers: a non-ascending `pd.cut` bin list, or a
`pd.qcut` label-count failure. -/
def customCore (s : Series) (cr : String) : Option BSeries :=
  if ',' ∈ cr.data then
    let ranges := tokensOf cr
    match allFloats ranges with
    | some numeric_ranges =>
      if 2 ≤ numeric_ranges.length then
        if strictAsc numeric_ranges then
          some (s.map fun x => x.bind (cutIvl true numeric_ranges))
        else none
      else none
    | none =>
      if 1 < ranges.length then qcutL s ranges.length ranges else none
  else none

/-- `PivotEngine._apply_custom_bucketing` (the Lean name drops the leading
underscore): on any failure the original column is returned unchanged. -/
def apply_custom_bucketing (s : Series) (custom_ranges : String) : BSeries :=
  (customCore s custom_ranges).getD (numS s)

/-- `PivotEngine.apply_bucketing`.  Returns `none` when the resolved registry
strategy itself raises (only quantile strategies can); every other path
returns a bucketed or unchanged column. -/
def apply_bucketing (s : Series) (dimension : String) (bucket_type : Option String)
    (custom_ranges : Option String) : Option BSeries :=
  if bucket_type = some "No Bucketing" ∨ bucket_type = none then some (numS s)
  else if bucket_type = some "Custom Buckets" ∧ crTruthy custom_ranges then
    some (apply_custom_bucketing s (custom_ranges.getD ""))
  else
    match bucketDefinitions dimension (bucket_type.getD "") with
    | some f => f s
    | none =>
      if dimension = "churn_risk_score" ∧ bucket_type = some "Risk Levels" then
        cutNamed (mkE [0, 0.3, 0.7, 1]) ["Low Risk", "Medium Risk", "High Risk"] s
      else if dimension = "nps_score" ∧ bucket_type = some "NPS Categories" then
        cutNamed (mkE [0, 6, 8, 10]) ["Detractors (0-6)", "Passives (7-8)", "Promoters (9-10)"] s
      else some (numS s)

/-- Round to the nearest integer, ties to even: the rounding used by
`DataFrame.round` (numpy half-to-even). -/
def roundHalfEven (q : ℚ) : ℤ :=
  let f := Int.floor q
  let r := q - (f : ℚ)
  if r < 1 / 2 then f
  else if 1 / 2 < r then f + 1
  else if Int.emod f 2 = 0 then f else f + 1

/-- `x.round(d)`: round to `d` decimal places, ties to even. -/
def roundTo (d : ℕ) (q : ℚ) : ℚ :=
  ((roundHalfEven (q * (10 : ℚ) ^ d) : ℤ) : ℚ) / (10 : ℚ) ^ d

/-- One record of the input table, projected onto what
`create_pivot_table` reads: the chosen row-axis column (`xval`), the chosen
column-axis column (`yval`), and the metric backing fields of the schema. -/
structure Row where
  xval : Option ℚ
  yval : Option ℚ
  total_revenue : ℚ
  ltv : ℚ
  is_retained : Bool
  average_order_value : ℚ
  total_orders : ℚ
deriving DecidableEq

/-- A pivot table: its row-label universe, column-label universe, and the
value at each (row, column) pair.  `cell` is total; it returns the
zero-filled value everywhere, which for labels outside `rows × cols`
is `0`. -/
structure PivotTable where
  rows : Finset Label
  cols : Finset Label
  cell : Label → Label → ℚ

/-- The (row label, column label) pairs of positions where both bucketed
columns are non-null — the observations `pd.crosstab` keeps after its
`dropna`. -/
def observedPairs : BSeries → BSeries → List (Label × Label)
  | x :: xs, y :: ys =>
    match x, y with
    | some a, some b => (a, b) :: observedPairs xs ys
    | _, _ => observedPairs xs ys
  | _, _ => []

/-- Observations together with the aggregated value column, for the
`values=...`/`aggfunc=...` forms of `pd.crosstab`. -/
def observedTriples : BSeries → BSeries → List ℚ → List (Label × Label × ℚ)
  | x :: xs, y :: ys, v :: vs =>
    match x, y with
    | some a, some b => (a, b, v) :: observedTriples xs ys vs
    | _, _ => observedTriples xs ys vs
  | _, _, _ => []

/-- `pd.crosstab(x_data, y_data)`: the Count pivot.  Row and column label
sets are the observed ones; every cell of the rectangle holds the number of
observations at that label pair (0 when none — crosstab zero-fills). -/
def crosstabCount (xs ys : BSeries) : PivotTable :=
  let ps := observedPairs xs ys
  { rows := (ps.map Prod.fst).toFinset
    cols := (ps.map Prod.snd).toFinset
    cell := fun r c => ((ps.count (r, c) : ℕ) : ℚ) }

/-- Aggregation selector of the `values=` crosstab forms. -/
inductive AggKind where
  | sum
  | mean
deriving DecidableEq

/-- The values aggregated into cell `(r, c)`. -/
def cellGroup (ts : List (Label × Label × ℚ)) (r c : Label) : List ℚ :=
  ts.filterMap fun t => if t.1 = r ∧ t.2.1 = c then some t.2.2 else none

/-- `pd.crosstab(x_data, y_data, values=v, aggfunc=...)` followed by the
optional `.round(nd)` and the final `.fillna(0)`: cells with no observation
become 0, others hold the (optionally rounded) sum or mean of their
group. -/
def crosstabAgg (xs ys : BSeries) (vs : List ℚ) (agg : AggKind) (nd : Option ℕ) :
    PivotTable :=
  let ts := observedTriples xs ys vs
  { rows := (ts.map fun t => t.1).toFinset
    cols := (ts.map fun t => t.2.1).toFinset
    cell := fun r c =>
      let g := cellGroup ts r c
      if g.isEmpty then 0
      else
        let v : ℚ :=
          match agg with
          | AggKind.sum => g.sum
          | AggKind.mean => g.sum / (g.length : ℚ)
        match nd with
        | some d => roundTo d v
        | none => v }

/-- `PivotEngine.create_pivot_table`.  `x_axis`/`y_axis` name the chosen
dimensions (their column contents are `Row.xval`/`Row.yval`).  Returns
`none` when the call raises: an unrecognized metric leaves the local
`pivot_table` unassigned, and a failing quantile strategy raises out of
`apply_bucketing`. -/
def create_pivot_table (df : List Row) (x_axis y_axis metric : String)
    (x_bucket_type y_bucket_type : Option String)
    (x_custom_ranges y_custom_ranges : Option String) : Option PivotTable :=
  let pivot_df := df
  match apply_bucketing (pivot_df.map (fun r => r.xval)) x_axis x_bucket_type x_custom_ranges with
  | none => none
  | some x_data =>
  match apply_bucketing (pivot_df.map (fun r => r.yval)) y_axis y_bucket_type y_custom_ranges with
  | none => none
  | some y_data =>
  if metric = "Count" then
    some (crosstabCount x_data y_data)
  else if metric = "Total Revenue" then
    some (crosstabAgg x_data y_data (pivot_df.map (fun r => r.total_revenue)) AggKind.sum (some 2))
  else if metric = "Avg LTV" then
    some (crosstabAgg x_data y_data (pivot_df.map (fun r => r.ltv)) AggKind.mean (some 2))
  else if metric = "Retention Rate" then
    let pt := crosstabAgg x_data y_data
      (pivot_df.map (fun r => if r.is_retained then (1 : ℚ) else 0)) AggKind.mean (some 3)
    some { pt with cell := fun r c => pt.cell r c * 100 }
  else if metric = "Avg AOV" then
    some (crosstabAgg x_data y_data (pivot_df.map (fun r => r.average_order_value)) AggKind.mean (some 2))
  else if metric = "Total Orders" then
    some (crosstabAgg x_data y_data (pivot_df.map (fun r => r.total_orders)) AggKind.sum none)
  else none

/-- A float produced by the comparator's elementwise arithmetic: a real
(rational) value, an infinity, or NaN. -/
inductive PFloat where
  | val (q : ℚ)
  | posInf
  | negInf
  | nan
deriving DecidableEq

/-- Elementwise float division as numpy performs it: division by zero gives
a signed infinity, and `0 / 0` gives NaN. -/
def fdivQ (a b : ℚ) : PFloat :=
  if b = 0 then
    if 0 < a then PFloat.posInf
    else if a < 0 then PFloat.negInf
    else PFloat.nan
  else PFloat.val (a / b)

/-- Elementwise multiplication by the positive constant 100. -/
def fscale100 : PFloat → PFloat
  | PFloat.val q => PFloat.val (q * 100)
  | PFloat.posInf => PFloat.posInf
  | PFloat.negInf => PFloat.negInf
  | PFloat.nan => PFloat.nan

/-- `.replace([np.inf, -np.inf], 0)`: infinities become 0; NaN is kept. -/
def replaceInfZero : PFloat → PFloat
  | PFloat.posInf => PFloat.val 0
  | PFloat.negInf => PFloat.val 0
  | x => x

/-- A difference table whose cells are floats (they may be NaN). -/
structure PDiffTable where
  rows : Finset Label
  cols : Finset Label
  cell : Label → Label → PFloat

/-- The dictionary returned by `compare_segments`. -/
structure CompareResult where
  absolute_difference : PivotTable
  percentage_difference : PDiffTable
  pivot1 : PivotTable
  pivot2 : PivotTable

/-- `reindex(index=rs, columns=cs, fill_value=0)`: any cell outside the
original label rectangle is filled with 0. -/
def reindexUnion (p : PivotTable) (rs cs : Finset Label) : PivotTable :=
  { rows := rs
    cols := cs
    cell := fun r c => if r ∈ p.rows ∧ c ∈ p.cols then p.cell r c else 0 }

/-- `PivotEngine.compare_segments`: build both pivots with identical
parameters, align them on the union of labels with 0 fill, and return the
absolute and percentage difference tables. -/
def compare_segments (df1 df2 : List Row) (x_axis y_axis metric : String)
    (x_bucket_type y_bucket_type : Option String) : Option CompareResult :=
  match create_pivot_table df1 x_axis y_axis metric x_bucket_type y_bucket_type none none with
  | none => none
  | some p1 =>
  match create_pivot_table df2 x_axis y_axis metric x_bucket_type y_bucket_type none none with
  | none => none
  | some p2 =>
  let all_index := p1.rows ∪ p2.rows
  let all_columns := p1.cols ∪ p2.cols
  let q1 := reindexUnion p1 all_index all_columns
  let q2 := reindexUnion p2 all_index all_columns
  some
    { absolute_difference :=
        { rows := all_index
          cols := all_columns
          cell := fun r c => q1.cell r c - q2.cell r c }
      percentage_difference :=
        { rows := all_index
          cols := all_columns
          cell := fun r c =>
            replaceInfZero (fscale100 (fdivQ (q1.cell r c - q2.cell r c) (q2.cell r c))) }
      pivot1 := q1
      pivot2 := q2 }

/-- The state a `PivotEngine` instance carries: the registry built by
`__init__` and never mutated afterwards. -/
structure PivotEngineState where
  bucket_definitions : String → String → Option (Series → Option BSeries)

/-- `PivotEngine()`. -/
def pivotEngineInit : PivotEngineState :=
  { bucket_definitions := bucketDefinitions }

/-- A call of `create_pivot_table` with the engine state and the caller's
table threaded explicitly: the source copies the table (`df.copy()`) before
touching it and reads but never writes the registry, so the call returns
the result together with the engine state and the caller's table as the
call leaves them. -/
def create_pivot_table_call (engine : PivotEngineState) (df : List Row)
    (x_axis y_axis metric : String) (x_bucket_type y_bucket_type : Option String)
    (x_custom_ranges y_custom_ranges : Option String) :
    Option PivotTable × PivotEngineState × List Row :=
  (create_pivot_table df x_axis y_axis metric x_bucket_type y_bucket_type
      x_custom_ranges y_custom_ranges,
   engine, df)

/-- Sum of every cell of the rectangle of a pivot table. -/
def sumCells (p : PivotTable) : ℚ :=
  ∑ r ∈ p.rows, ∑ c ∈ p.cols, p.cell r c

/-- The set of cells of a pivot table: the full label rectangle. -/
def cellsOf (p : PivotTable) : Finset (Label × Label) :=
  p.rows ×ˢ p.cols

/-- The set of (row, column) label pairs actually observed in the bucketed
input. -/
def observedSet (xs ys : BSeries) : Finset (Label × Label) :=
  (observedPairs xs ys).toFinset

/-! Helper lemmas about lengths of bucketed columns. -/

lemma numS_length (s : Series) : (numS s).length = s.length := by
  simp [numS]

lemma cutNamed_length (edges : List Edge) (labels : List String) (s : Series)
    (out : BSeries) (h : cutNamed edges labels s = some out) :
    out.length = s.length := by
  simp only [cutNamed, Option.some.injEq] at h
  subst h
  simp

lemma dateMap_length (f : ℚ → Label) (s : Series) (out : BSeries)
    (h : dateMap f s = some out) : out.length = s.length := by
  simp only [dateMap, Option.some.injEq] at h
  subst h
  simp

lemma qcutL_length (s : Series) (q : ℕ) (labels : List String) (out : BSeries)
    (h : qcutL s q labels = some out) : out.length = s.length := by
  simp only [qcutL] at h
  split_ifs at h
  all_goals
    first
      | exact Option.noConfusion h
      | (injection h with h
         subst h
         simp)

lemma customCore_length (s : Series) (cr : String) (out : BSeries)
    (h : customCore s cr = some out) : out.length = s.length := by
  simp only [customCore] at h
  by_cases hcm : ',' ∈ cr.data
  · rw [if_pos hcm] at h
    split at h
    · split_ifs at h
      all_goals
        first
          | exact Option.noConfusion h
          | (injection h with h
             subst h
             simp)
    · split_ifs at h
      all_goals
        first
          | exact Option.noConfusion h
          | exact qcutL_length _ _ _ _ h
  · rw [if_neg hcm] at h
    exact Option.noConfusion h

lemma apply_custom_bucketing_length (s : Series) (cr : String) :
    (apply_custom_bucketing s cr).length = s.length := by
  unfold apply_custom_bucketing
  rcases hc : customCore s cr with _ | out
  · simp [numS]
  · simpa using customCore_length s cr out hc

set_option maxHeartbeats 1000000 in
lemma bucketDefinitions_length (dim strat : String) (f : Series → Option BSeries)
    (h : bucketDefinitions dim strat = some f) (s : Series) (out : BSeries)
    (h2 : f s = some out) : out.length = s.length := by
  unfold bucketDefinitions at h
  split_ifs at h
  all_goals injection h with h
  all_goals subst h
  all_goals
    first
      | exact cutNamed_length _ _ _ _ h2
      | exact dateMap_length _ _ _ h2
      | exact qcutL_length _ _ _ _ h2

lemma apply_bucketing_length (s : Series) (dim : String) (bt cr : Option String)
    (out : BSeries) (h : apply_bucketing s dim bt cr = some out) :
    out.length = s.length := by
  unfold apply_bucketing at h
  by_cases h1 : bt = some "No Bucketing" ∨ bt = none
  · rw [if_pos h1] at h
    injection h with h
    subst h
    simp [numS]
  · rw [if_neg h1] at h
    by_cases h2 : bt = some "Custom Buckets" ∧ crTruthy cr = true
    · rw [if_pos h2] at h
      injection h with h
      subst h
      exact apply_custom_bucketing_length _ _
    · rw [if_neg h2] at h
      rcases hbd : bucketDefinitions dim (bt.getD "") with _ | f
      · rw [hbd] at h
        split_ifs at h
        · exact cutNamed_length _ _ _ _ h
        · exact cutNamed_length _ _ _ _ h
        · injection h with h
          subst h
          simp [numS]
      · rw [hbd] at h
        exact bucketDefinitions_length _ _ _ hbd _ _ h

/-! Helper lemmas about `crosstabCount` and observed pairs. -/

lemma list_count_sum (ps : List (Label × Label)) :
    ∑ p ∈ ps.toFinset, ps.count p = ps.length := by
  induction ps with
  | nil => simp
  | cons a l ih =>
    by_cases ha : a ∈ l.toFinset
    · rw [List.toFinset_cons, Finset.insert_eq_self.mpr ha]
      have hstep : ∀ p, (a :: l).count p = l.count p + (if p = a then 1 else 0) := by
        intro p
        by_cases hpa : p = a
        · subst hpa
          rw [List.count_cons_self]
          simp
        · rw [List.count_cons_of_ne hpa]
          simp [hpa]
      rw [Finset.sum_congr rfl (fun p _ => hstep p), Finset.sum_add_distrib, ih,
        Finset.sum_ite_eq' l.toFinset a (fun _ => 1)]
      simp [ha]
    · rw [List.toFinset_cons, Finset.sum_insert ha, List.count_cons_self]
      have hl0 : l.count a = 0 := List.count_eq_zero.mpr (by simpa using ha)
      have hrest : ∀ p ∈ l.toFinset, (a :: l).count p = l.count p := by
        intro p hp
        have hne : p ≠ a := by
          rintro rfl
          exact ha hp
        rw [List.count_cons_of_ne hne]
      rw [Finset.sum_congr rfl hrest, ih, hl0]
      simp [Nat.add_comm]

lemma observedPairs_subset_product (xs ys : BSeries) :
    (observedPairs xs ys).toFinset ⊆
      ((observedPairs xs ys).map Prod.fst).toFinset ×ˢ
        ((observedPairs xs ys).map Prod.snd).toFinset := by
  intro p hp
  rw [Finset.mem_product]
  rw [List.mem_toFinset] at hp
  exact ⟨List.mem_toFinset.mpr (List.mem_map_of_mem Prod.fst hp),
    List.mem_toFinset.mpr (List.mem_map_of_mem Prod.snd hp)⟩

lemma sumCells_crosstabCount (xs ys : BSeries) :
    sumCells (crosstabCount xs ys) = ((observedPairs xs ys).length : ℚ) := by
  classical
  unfold sumCells crosstabCount
  have key : ∀ (R C : Finset Label), (observedPairs xs ys).toFinset ⊆ R ×ˢ C →
      ∑ r ∈ R, ∑ c ∈ C, (((observedPairs xs ys).count (r, c) : ℕ) : ℚ) =
        ((observedPairs xs ys).length : ℚ) := by
    intro R C hsub
    have h1 : ∑ r ∈ R, ∑ c ∈ C, (((observedPairs xs ys).count (r, c) : ℕ) : ℚ) =
        ((∑ r ∈ R, ∑ c ∈ C, (observedPairs xs ys).count (r, c) : ℕ) : ℚ) := by
      push_cast
      rfl
    rw [h1]
    congr 1
    calc
      ∑ r ∈ R, ∑ c ∈ C, (observedPairs xs ys).count (r, c)
          = ∑ p ∈ R ×ˢ C, (observedPairs xs ys).count p := by
            rw [Finset.sum_product]
      _ = ∑ p ∈ (observedPairs xs ys).toFinset, (observedPairs xs ys).count p := by
            refine (Finset.sum_subset hsub fun p _ hp => ?_).symm
            exact List.count_eq_zero.mpr (by simpa using hp)
      _ = (observedPairs xs ys).length := list_count_sum _
  exact key _ _ (observedPairs_subset_product xs ys)

lemma observedPairs_length_of_all_some :
    ∀ (xs ys : BSeries), xs.length = ys.length →
      (∀ a ∈ xs, a.isSome) → (∀ b ∈ ys, b.isSome) →
      (observedPairs xs ys).length = xs.length := by
  intro xs
  induction xs with
  | nil =>
    intro ys _ _ _
    simp [observedPairs]
  | cons x xs ih =>
    intro ys h hx hy
    cases ys with
    | nil => simp at h
    | cons y ys =>
      obtain ⟨a, ha⟩ := Option.isSome_iff_exists.mp (hx x (by simp))
      obtain ⟨b, hb⟩ := Option.isSome_iff_exists.mp (hy y (by simp))
      subst ha
      subst hb
      simp only [observedPairs, List.length_cons]
      rw [ih ys (by simpa using h) (fun a h2 => hx a (by simp [h2]))
        (fun b h2 => hy b (by simp [h2]))]

/-- C2 (corrected): the sum of all cells of a Count pivot equals the number
of input rows whose bucketed row and column values are both non-null; when
every bucketed value on both axes is non-null this is the full row count of
the input table.  (As originally stated — always equal to the row count —
the claim fails when bucketing drops out-of-range values; see the
counterexample.) -/
theorem count_sum_matches_bucketed_rows (df : List Row) (x y : String)
    (xbt ybt xcr ycr : Option String) (xd yd : BSeries)
    (hx : apply_bucketing (df.map (fun r => r.xval)) x xbt xcr = some xd)
    (hy : apply_bucketing (df.map (fun r => r.yval)) y ybt ycr = some yd) :
    create_pivot_table df x y "Count" xbt ybt xcr ycr = some (crosstabCount xd yd) ∧
    sumCells (crosstabCount xd yd) = ((observedPairs xd yd).length : ℚ) ∧
    ((∀ a ∈ xd, a.isSome) → (∀ b ∈ yd, b.isSome) →
      ((observedPairs xd yd).length : ℚ) = (df.length : ℚ)) := by
  refine ⟨?_, sumCells_crosstabCount xd yd, ?_⟩
  · simp only [create_pivot_table]
    rw [hx, hy]
    rfl
  · intro hax hay
    have hlx : xd.length = df.length := by
      simpa using apply_bucketing_length _ _ _ _ _ hx
    have hly : yd.length = df.length := by
      simpa using apply_bucketing_length _ _ _ _ _ hy
    rw [observedPairs_length_of_all_some xd yd (hlx.trans hly.symm) hax hay, hlx]

/-- Input table with a single row whose `age` is 150: `'Young/Old'`
bucketing maps it to no bucket. -/
def dfOut : List Row := [⟨some 150, some 1, 0, 0, false, 0, 0⟩]

/-- C2 counterexample: on a one-row table bucketed by `age`/`'Young/Old'`,
the Count pivot sums to 0, not to the row count 1 — the claim as stated is
false. -/
theorem count_sum_counterexample :
    (create_pivot_table dfOut "age" "gender" "Count" (some "Young/Old") none none none).map
        sumCells = some 0 ∧
    ((dfOut.length : ℚ) = 1 ∧ (0 : ℚ) ≠ 1) := by
  refine ⟨by decide, by norm_num [dfOut], by norm_num⟩

/-- One-row table whose values stay in range under no bucketing. -/
def dfW : List Row := [⟨some 1, some 1, 0, 0, false, 0, 0⟩]

/-- Witness for C2 at a concrete input: one row, no bucketing, sum 1. -/
theorem count_sum_matches_bucketed_rows_witness :
    create_pivot_table dfW "gender" "country" "Count" none none none none =
      some (crosstabCount (numS [some 1]) (numS [some 1])) ∧
    sumCells (crosstabCount (numS [some 1]) (numS [some 1])) = (1 : ℚ) ∧
    (dfW.length : ℚ) = 1 := by
  have h := count_sum_matches_bucketed_rows dfW "gender" "country" none none none none
      (numS [some 1]) (numS [some 1]) rfl rfl
  refine ⟨h.1, ?_, by norm_num [dfW]⟩
  rw [h.2.1]
  norm_num [observedPairs, numS]

/-- C8 (confirmed): the builder is pure.  With the engine state and the
caller's table threaded explicitly, a call returns them unchanged (the code
works on `df.copy()` and only reads the registry), and repeating the call
on the state and table it returned yields the identical result. -/
theorem create_pivot_table_pure (engine : PivotEngineState) (df : List Row)
    (x y metric : String) (xbt ybt xcr ycr : Option String) :
    (create_pivot_table_call engine df x y metric xbt ybt xcr ycr).2.1 = engine ∧
    (create_pivot_table_call engine df x y metric xbt ybt xcr ycr).2.2 = df ∧
    create_pivot_table_call (create_pivot_table_call engine df x y metric xbt ybt xcr ycr).2.1
        (create_pivot_table_call engine df x y metric xbt ybt xcr ycr).2.2
        x y metric xbt ybt xcr ycr =
      create_pivot_table_call engine df x y metric xbt ybt xcr ycr :=
  ⟨rfl, rfl, rfl⟩

/-- C9 (confirmed): a metric name outside the six recognized by the
`if`/`elif` chain leaves `pivot_table` unassigned, so the call raises
(`none` in the embedding); `build` is defined only on the six metric
selectors. -/
theorem unknown_metric_raises (df : List Row) (x y metric : String)
    (xbt ybt xcr ycr : Option String)
    (hm : metric ∉ (["Count", "Total Revenue", "Avg LTV", "Retention Rate",
      "Avg AOV", "Total Orders"] : List String)) :
    create_pivot_table df x y metric xbt ybt xcr ycr = none := by
  simp only [List.mem_cons, List.not_mem_nil, or_false, not_or] at hm
  obtain ⟨h1, h2, h3, h4, h5, h6⟩ := hm
  simp only [create_pivot_table]
  cases apply_bucketing (df.map (fun r => r.xval)) x xbt xcr with
  | none => rfl
  | some xd =>
    cases apply_bucketing (df.map (fun r => r.yval)) y ybt ycr with
    | none => rfl
    | some yd => simp [h1, h2, h3, h4, h5, h6]

/-- Witness for C9: the unrecognized metric `"Median LTV"` raises. -/
theorem unknown_metric_raises_witness :
    create_pivot_table dfW "gender" "country" "Median LTV" none none none none = none := by
  exact unknown_metric_raises dfW "gender" "country" "Median LTV" none none none none
    (by decide)

/-- C10 (confirmed): a custom-range string without a comma returns the
column unchanged — custom bucketing requires at least two comma-separated
tokens, even when the single token parses as a number. -/
theorem single_token_custom_ranges_unchanged (s : Series) (cr : String)
    (h : ',' ∉ cr.data) :
    apply_custom_bucketing s cr = numS s := by
  simp [apply_custom_bucketing, customCore, h]

/-- Witness for C10: the single numeric token `"42"` (which `float` would
accept) leaves the column unchanged. -/
theorem single_token_custom_ranges_unchanged_witness :
    apply_custom_bucketing [some 7] "42" = numS [some 7] ∧ parseFloat "42" = some 42 := by
  constructor
  · exact single_token_custom_ranges_unchanged [some 7] "42" (by decide)
  · simp +decide [parseFloat, takeDigits, digitsVal]

/-- C6 (corrected): requesting a strategy that is neither `'No Bucketing'`
nor `'Custom Buckets'`, is not registered for the dimension, and is not one
of the two special cases hardcoded outside the registry
(`'Risk Levels'` for `churn_risk_score`, `'NPS Categories'` for
`nps_score`), passes the column through unchanged; and any custom-range
string whose parsing or binning fails also returns the column unchanged —
the pivot never fails because of bucketing. -/
theorem unknown_strategy_passes_through (s : Series) (dim b : String)
    (cr : Option String)
    (hnb : b ≠ "No Bucketing") (hcb : b ≠ "Custom Buckets")
    (hreg : bucketDefinitions dim b = none)
    (hrisk : ¬(dim = "churn_risk_score" ∧ b = "Risk Levels"))
    (hnps : ¬(dim = "nps_score" ∧ b = "NPS Categories")) :
    apply_bucketing s dim (some b) cr = some (numS s) ∧
    (∀ (s2 : Series) (cr2 : String), customCore s2 cr2 = none →
      apply_custom_bucketing s2 cr2 = numS s2) := by
  constructor
  · unfold apply_bucketing
    rw [if_neg (by simp [hnb]), if_neg (by simp [hcb])]
    simp only [Option.getD_some]
    rw [hreg]
    rw [if_neg (by simpa using hrisk), if_neg (by simpa using hnps)]
  · intro s2 cr2 h
    simp [apply_custom_bucketing, h]

/-- C6 counterexample: `'Risk Levels'` is not registered for
`churn_risk_score` (the registry has no entry for that dimension at all,
and `get_bucket_options` offers only `'No Bucketing'`/`'Custom Buckets'`),
yet `apply_bucketing` does not pass the column through — a hardcoded branch
buckets it. -/
theorem unknown_strategy_counterexample :
    bucketDefinitions "churn_risk_score" "Risk Levels" = none ∧
    apply_bucketing [some 1] "churn_risk_score" (some "Risk Levels") none =
      some [some (Label.str "High Risk")] ∧
    some [some (Label.str "High Risk")] ≠ some (numS [some 1]) := by
  refine ⟨rfl, ?_, by decide⟩
  simp +decide [apply_bucketing, bucketDefinitions, cutNamed, cutIdxE, cutIdxGoE, mkE]
  norm_num

/-- Witness for C6: an unregistered strategy name on an ordinary dimension
passes the column through, and a custom-range string that fails to parse
and bin returns the column unchanged. -/
theorem unknown_strategy_passes_through_witness :
    apply_bucketing [some 1] "loyalty_tier" (some "Whatever") none =
      some (numS [some 1]) ∧
    apply_custom_bucketing [] "1,abc" = numS [] := by
  have h := unknown_strategy_passes_through [some 1] "loyalty_tier" "Whatever" none
    (by decide) (by decide) rfl (by decide) (by decide)
  exact ⟨h.1, h.2 [] "1,abc" (by decide)⟩

lemma allFloats_boundary_string :
    allFloats (tokensOf "0,25,50,75,100") = some [0, 25, 50, 75, 100] := by
  simp +decide [allFloats, tokensOf, splitCommas, trimChars, parseFloat, takeDigits, digitsVal]

/-- C4 (confirmed): custom bucketing with the boundary string
`"0,25,50,75,100"` bins the column through a 4-interval cut whose lowest
edge is included, and that cut assigns every value in `[0, 100]` to exactly
one of the 4 intervals (the characterization on the right determines the
unique bucket) while every value outside `[0, 100]` is assigned to none. -/
theorem custom_boundary_buckets_partition (s : Series) (v : ℚ) :
    apply_custom_bucketing s "0,25,50,75,100" =
      s.map (fun x => x.bind (cutIvl true [0, 25, 50, 75, 100])) ∧
    cutIvl true [0, 25, 50, 75, 100] v =
      (if 0 ≤ v ∧ v ≤ 100 then
        some (if v ≤ 25 then Label.ivl 0 25
          else if v ≤ 50 then Label.ivl 25 50
          else if v ≤ 75 then Label.ivl 50 75
          else Label.ivl 75 100)
      else none) := by
  constructor
  · simp only [apply_custom_bucketing, customCore]
    rw [if_pos (by decide), allFloats_boundary_string]
    rfl
  · simp only [cutIvl, cutIvlGo]
    split_ifs
    all_goals try rfl
    all_goals exfalso
    all_goals simp_all
    all_goals rcases ‹_ ∧ _› with ⟨hA, hB⟩
    all_goals try have h100 := ‹0 ≤ v → 100 < v› (by linarith)
    all_goals try have h25 := ‹0 ≤ v → 25 < v› (by linarith)
    all_goals try have h50 := ‹25 < v → 50 < v› (by linarith)
    all_goals linarith

lemma pct_cell_cases (a b : ℚ) :
    replaceInfZero (fscale100 (fdivQ (a - b) b)) ≠ PFloat.posInf ∧
    replaceInfZero (fscale100 (fdivQ (a - b) b)) ≠ PFloat.negInf ∧
    (b = 0 → replaceInfZero (fscale100 (fdivQ (a - b) b)) =
      (if a = 0 then PFloat.nan else PFloat.val 0)) := by
  by_cases hb : b = 0
  · subst hb
    simp only [sub_zero]
    by_cases ha : a = 0
    · subst ha
      simp [fdivQ, fscale100, replaceInfZero]
    · rcases lt_trichotomy a 0 with h | h | h
      · simp [fdivQ, fscale100, replaceInfZero, h, ha, not_lt.mpr h.le]
      · exact absurd h ha
      · simp [fdivQ, fscale100, replaceInfZero, h, ha]
  · have hv : fdivQ (a - b) b = PFloat.val ((a - b) / b) := by simp [fdivQ, hb]
    simp [hv, fscale100, replaceInfZero, hb]

/-- C1 (corrected): the percentage-difference table never contains an
infinity (the code replaces both infinities with 0), and at a cell whose
aligned `pivot2` value is 0 the result is 0 only when the aligned `pivot1`
value is nonzero; when both aligned values are 0 the cell is NaN
(`0 / 0`), which `replace([inf, -inf], 0)` does not touch — so the table
can contain an undefined value, contrary to the original claim. -/
theorem percentage_difference_zero_denominator (df1 df2 : List Row)
    (x y metric : String) (xbt ybt : Option String) (res : CompareResult)
    (r c : Label)
    (h : compare_segments df1 df2 x y metric xbt ybt = some res) :
    res.percentage_difference.cell r c ≠ PFloat.posInf ∧
    res.percentage_difference.cell r c ≠ PFloat.negInf ∧
    (res.pivot2.cell r c = 0 →
      res.percentage_difference.cell r c =
        (if res.pivot1.cell r c = 0 then PFloat.nan else PFloat.val 0)) := by
  simp only [compare_segments] at h
  rcases h1 : create_pivot_table df1 x y metric xbt ybt none none with _ | p1
  · rw [h1] at h
    exact Option.noConfusion h
  · rw [h1] at h
    rcases h2 : create_pivot_table df2 x y metric xbt ybt none none with _ | p2
    · rw [h2] at h
      exact Option.noConfusion h
    · rw [h2] at h
      injection h with h
      subst h
      exact pct_cell_cases _ _

/-- Second one-row table, with labels disjoint from `dfW`. -/
def dfW2 : List Row := [⟨some 2, some 2, 0, 0, false, 0, 0⟩]

/-- C1 counterexample: comparing two one-row tables with disjoint labels,
the aligned `pivot2` value at `(2, 1)` is 0 but the percentage difference
there is NaN, not 0 — the claim as stated (always 0, never undefined)
is false. -/
theorem percentage_difference_nan_counterexample :
    (compare_segments dfW dfW2 "a" "b" "Count" none none).map
        (fun res => res.pivot2.cell (Label.num 2) (Label.num 1)) = some 0 ∧
    (compare_segments dfW dfW2 "a" "b" "Count" none none).map
        (fun res => res.percentage_difference.cell (Label.num 2) (Label.num 1)) =
      some PFloat.nan ∧
    PFloat.nan ≠ PFloat.val 0 := by
  refine ⟨by decide, ?_, by decide⟩
  simp +decide [compare_segments, create_pivot_table, apply_bucketing, numS, crosstabCount,
    reindexUnion, observedPairs, fdivQ, fscale100, replaceInfZero]

/-- Witness for C1 (amended) at a concrete comparison: the `(2, 1)` cell
has aligned `pivot2` value 0 and aligned `pivot1` value 0, and the theorem
yields NaN there, never an infinity. -/
theorem percentage_difference_zero_denominator_witness :
    ∃ res, compare_segments dfW dfW2 "a" "b" "Count" none none = some res ∧
      res.pivot2.cell (Label.num 2) (Label.num 1) = 0 ∧
      res.percentage_difference.cell (Label.num 2) (Label.num 1) = PFloat.nan ∧
      res.percentage_difference.cell (Label.num 2) (Label.num 1) ≠ PFloat.posInf := by
  refine ⟨_, rfl, by decide, ?_, ?_⟩
  · exact ((percentage_difference_zero_denominator dfW dfW2 "a" "b" "Count" none none _
      (Label.num 2) (Label.num 1) rfl).2.2 (by decide)).trans (by decide)
  · exact (percentage_difference_zero_denominator dfW dfW2 "a" "b" "Count" none none _
      (Label.num 2) (Label.num 1) rfl).1

/-- C5 (confirmed): `compare_segments` reindexes both pivots onto the union
of their row labels and the union of their column labels, filling newly
introduced cells with 0 (so the aligned shape is
`|unionRows| × |unionCols|`); with disjoint label sets every original cell
of each table appears with its own value against 0 from the other side. -/
theorem compare_aligns_on_union (df1 df2 : List Row) (x y metric : String)
    (xbt ybt : Option String) (p1 p2 : PivotTable) (res : CompareResult)
    (h1 : create_pivot_table df1 x y metric xbt ybt none none = some p1)
    (h2 : create_pivot_table df2 x y metric xbt ybt none none = some p2)
    (h : compare_segments df1 df2 x y metric xbt ybt = some res) :
    (res.pivot1.rows = p1.rows ∪ p2.rows ∧ res.pivot1.cols = p1.cols ∪ p2.cols ∧
     res.pivot2.rows = p1.rows ∪ p2.rows ∧ res.pivot2.cols = p1.cols ∪ p2.cols) ∧
    (∀ r c, res.pivot1.cell r c =
      if r ∈ p1.rows ∧ c ∈ p1.cols then p1.cell r c else 0) ∧
    (∀ r c, res.pivot2.cell r c =
      if r ∈ p2.rows ∧ c ∈ p2.cols then p2.cell r c else 0) ∧
    (Disjoint p1.rows p2.rows → Disjoint p1.cols p2.cols →
      (∀ r ∈ p1.rows, ∀ c ∈ p1.cols,
        res.pivot1.cell r c = p1.cell r c ∧ res.pivot2.cell r c = 0) ∧
      (∀ r ∈ p2.rows, ∀ c ∈ p2.cols,
        res.pivot2.cell r c = p2.cell r c ∧ res.pivot1.cell r c = 0)) := by
  simp only [compare_segments] at h
  rw [h1, h2] at h
  injection h with h
  subst h
  refine ⟨⟨rfl, rfl, rfl, rfl⟩, fun r c => rfl, fun r c => rfl, ?_⟩
  intro hdr hdc
  constructor
  · intro r hr c hc
    constructor
    · show (if r ∈ p1.rows ∧ c ∈ p1.cols then p1.cell r c else 0) = p1.cell r c
      rw [if_pos ⟨hr, hc⟩]
    · show (if r ∈ p2.rows ∧ c ∈ p2.cols then p2.cell r c else 0) = 0
      rw [if_neg]
      rintro ⟨hr2, _⟩
      exact (Finset.disjoint_left.mp hdr hr) hr2
  · intro r hr c hc
    constructor
    · show (if r ∈ p2.rows ∧ c ∈ p2.cols then p2.cell r c else 0) = p2.cell r c
      rw [if_pos ⟨hr, hc⟩]
    · show (if r ∈ p1.rows ∧ c ∈ p1.cols then p1.cell r c else 0) = 0
      rw [if_neg]
      rintro ⟨hr1, _⟩
      exact (Finset.disjoint_right.mp hdr hr) hr1

/-- Witness for C5: two disjoint one-row tables; the original cell survives
with its value against 0, and the aligned row universe is the union. -/
theorem compare_aligns_on_union_witness :
    ∃ res, compare_segments dfW dfW2 "a" "b" "Count" none none = some res ∧
      res.pivot1.cell (Label.num 1) (Label.num 1) =
        (crosstabCount (numS [some 1]) (numS [some 1])).cell (Label.num 1) (Label.num 1) ∧
      res.pivot2.cell (Label.num 1) (Label.num 1) = 0 ∧
      res.pivot1.rows = (crosstabCount (numS [some 1]) (numS [some 1])).rows ∪
        (crosstabCount (numS [some 2]) (numS [some 2])).rows := by
  have h := compare_aligns_on_union dfW dfW2 "a" "b" "Count" none none
    (crosstabCount (numS [some 1]) (numS [some 1]))
    (crosstabCount (numS [some 2]) (numS [some 2])) _ rfl rfl rfl
  have hd := (h.2.2.2 (by decide) (by decide)).1 (Label.num 1) (by decide)
    (Label.num 1) (by decide)
  exact ⟨_, rfl, hd.1, hd.2, h.1.1⟩

lemma observedTriples_map_proj :
    ∀ (xs ys : BSeries) (vs : List ℚ), xs.length ≤ vs.length →
      (observedTriples xs ys vs).map (fun t => (t.1, t.2.1)) = observedPairs xs ys := by
  intro xs
  induction xs with
  | nil =>
    intro ys vs _
    simp [observedTriples, observedPairs]
  | cons x xs ih =>
    intro ys vs h
    cases ys with
    | nil => simp [observedTriples, observedPairs]
    | cons y ys =>
      cases vs with
      | nil => simp at h
      | cons v vs =>
        have h2 : xs.length ≤ vs.length := by simpa using h
        cases x <;> cases y <;> simp [observedTriples, observedPairs, ih ys vs h2]

lemma crosstabCount_spec (xs ys : BSeries) :
    (crosstabCount xs ys).rows = ((observedPairs xs ys).map Prod.fst).toFinset ∧
    (crosstabCount xs ys).cols = ((observedPairs xs ys).map Prod.snd).toFinset ∧
    (∀ r c, (r, c) ∉ observedSet xs ys → (crosstabCount xs ys).cell r c = 0) := by
  refine ⟨rfl, rfl, fun r c hrc => ?_⟩
  have hz : (observedPairs xs ys).count (r, c) = 0 := by
    refine List.count_eq_zero.mpr fun hmem => hrc ?_
    simpa [observedSet] using hmem
  simp [crosstabCount, hz]

lemma crosstabAgg_spec (xs ys : BSeries) (vs : List ℚ) (agg : AggKind)
    (nd : Option ℕ) (hlen : xs.length ≤ vs.length) :
    (crosstabAgg xs ys vs agg nd).rows = ((observedPairs xs ys).map Prod.fst).toFinset ∧
    (crosstabAgg xs ys vs agg nd).cols = ((observedPairs xs ys).map Prod.snd).toFinset ∧
    (∀ r c, (r, c) ∉ observedSet xs ys → (crosstabAgg xs ys vs agg nd).cell r c = 0) := by
  have hproj := observedTriples_map_proj xs ys vs hlen
  refine ⟨?_, ?_, ?_⟩
  · show ((observedTriples xs ys vs).map fun t => t.1).toFinset = _
    have he : (fun (t : Label × Label × ℚ) => t.1) =
        (Prod.fst ∘ fun (t : Label × Label × ℚ) => (t.1, t.2.1)) := rfl
    rw [he, ← List.map_map, hproj]
  · show ((observedTriples xs ys vs).map fun t => t.2.1).toFinset = _
    have he : (fun (t : Label × Label × ℚ) => t.2.1) =
        (Prod.snd ∘ fun (t : Label × Label × ℚ) => (t.1, t.2.1)) := rfl
    rw [he, ← List.map_map, hproj]
  · intro r c hrc
    have hg : cellGroup (observedTriples xs ys vs) r c = [] := by
      simp only [cellGroup]
      rw [List.filterMap_eq_nil_iff]
      intro t ht
      rw [if_neg]
      rintro ⟨e1, e2⟩
      refine hrc ?_
      have hmem : (t.1, t.2.1) ∈ (observedTriples xs ys vs).map (fun t => (t.1, t.2.1)) :=
        List.mem_map_of_mem _ ht
      rw [hproj] at hmem
      rw [e1, e2] at hmem
      simpa [observedSet] using hmem
    simp [crosstabAgg, hg]

/-- The builder after both bucketings succeed: the metric dispatch of
`create_pivot_table` written out. -/
lemma create_pivot_table_eq (df : List Row) (x y metric : String)
    (xbt ybt xcr ycr : Option String) (xd yd : BSeries)
    (hx : apply_bucketing (df.map (fun r => r.xval)) x xbt xcr = some xd)
    (hy : apply_bucketing (df.map (fun r => r.yval)) y ybt ycr = some yd) :
    create_pivot_table df x y metric xbt ybt xcr ycr =
      (if metric = "Count" then some (crosstabCount xd yd)
       else if metric = "Total Revenue" then
         some (crosstabAgg xd yd (df.map (fun r => r.total_revenue)) AggKind.sum (some 2))
       else if metric = "Avg LTV" then
         some (crosstabAgg xd yd (df.map (fun r => r.ltv)) AggKind.mean (some 2))
       else if metric = "Retention Rate" then
         some { crosstabAgg xd yd (df.map (fun r => if r.is_retained then (1 : ℚ) else 0))
                  AggKind.mean (some 3) with
                cell := fun r c =>
                  (crosstabAgg xd yd (df.map (fun r => if r.is_retained then (1 : ℚ) else 0))
                    AggKind.mean (some 3)).cell r c * 100 }
       else if metric = "Avg AOV" then
         some (crosstabAgg xd yd (df.map (fun r => r.average_order_value)) AggKind.mean (some 2))
       else if metric = "Total Orders" then
         some (crosstabAgg xd yd (df.map (fun r => r.total_orders)) AggKind.sum none)
       else none) := by
  simp only [create_pivot_table]
  rw [hx, hy]

/-- C3 (corrected): the row-label set and column-label set of a built pivot
are exactly those observed in the bucketed input, but the cell set is the
full Cartesian product of the two — `pd.crosstab` zero-fills every label
pair of the rectangle that no input row falls into, so cells do exist for
unobserved bucket pairs (with value 0); see the counterexample. -/
theorem cells_are_label_rectangle (df : List Row) (x y metric : String)
    (xbt ybt xcr ycr : Option String) (xd yd : BSeries) (pt : PivotTable)
    (hx : apply_bucketing (df.map (fun r => r.xval)) x xbt xcr = some xd)
    (hy : apply_bucketing (df.map (fun r => r.yval)) y ybt ycr = some yd)
    (h : create_pivot_table df x y metric xbt ybt xcr ycr = some pt) :
    pt.rows = ((observedPairs xd yd).map Prod.fst).toFinset ∧
    pt.cols = ((observedPairs xd yd).map Prod.snd).toFinset ∧
    cellsOf pt = pt.rows ×ˢ pt.cols ∧
    (∀ r c, (r, c) ∉ observedSet xd yd → pt.cell r c = 0) := by
  have hlx : xd.length = df.length := by
    simpa using apply_bucketing_length _ _ _ _ _ hx
  have hlen : ∀ (f : Row → ℚ), xd.length ≤ (df.map f).length := by
    intro f
    simp [hlx]
  rw [create_pivot_table_eq df x y metric xbt ybt xcr ycr xd yd hx hy] at h
  split_ifs at h
  all_goals injection h with h
  all_goals subst h
  · exact ⟨(crosstabCount_spec xd yd).1, (crosstabCount_spec xd yd).2.1, rfl,
      (crosstabCount_spec xd yd).2.2⟩
  · exact ⟨(crosstabAgg_spec xd yd _ _ _ (hlen _)).1,
      (crosstabAgg_spec xd yd _ _ _ (hlen _)).2.1, rfl,
      (crosstabAgg_spec xd yd _ _ _ (hlen _)).2.2⟩
  · exact ⟨(crosstabAgg_spec xd yd _ _ _ (hlen _)).1,
      (crosstabAgg_spec xd yd _ _ _ (hlen _)).2.1, rfl,
      (crosstabAgg_spec xd yd _ _ _ (hlen _)).2.2⟩
  · refine ⟨(crosstabAgg_spec xd yd _ AggKind.mean (some 3) (hlen _)).1,
      (crosstabAgg_spec xd yd _ AggKind.mean (some 3) (hlen _)).2.1, rfl, ?_⟩
    intro r c hrc
    show (crosstabAgg xd yd _ AggKind.mean (some 3)).cell r c * 100 = 0
    rw [(crosstabAgg_spec xd yd _ AggKind.mean (some 3) (hlen _)).2.2 r c hrc]
    norm_num
  · exact ⟨(crosstabAgg_spec xd yd _ _ _ (hlen _)).1,
      (crosstabAgg_spec xd yd _ _ _ (hlen _)).2.1, rfl,
      (crosstabAgg_spec xd yd _ _ _ (hlen _)).2.2⟩
  · exact ⟨(crosstabAgg_spec xd yd _ _ _ (hlen _)).1,
      (crosstabAgg_spec xd yd _ _ _ (hlen _)).2.1, rfl,
      (crosstabAgg_spec xd yd _ _ _ (hlen _)).2.2⟩

/-- Two rows with distinct labels on both axes. -/
def dfR : List Row :=
  [⟨some 1, some 10, 0, 0, false, 0, 0⟩, ⟨some 2, some 20, 0, 0, false, 0, 0⟩]

/-- C3 counterexample: with observations only at `(1, 10)` and `(2, 20)`,
the built table still has a cell at the unobserved pair `(1, 20)` (holding
0), so the cell set is strictly larger than the set of observed pairs. -/
theorem cells_are_label_rectangle_counterexample :
    (create_pivot_table dfR "a" "b" "Count" none none none none).map
        (fun pt => (decide ((Label.num 1, Label.num 20) ∈ cellsOf pt),
          pt.cell (Label.num 1) (Label.num 20))) = some (true, (0 : ℚ)) ∧
    (Label.num 1, Label.num 20) ∉
      observedSet (numS [some 1, some 2]) (numS [some 10, some 20]) := by
  exact ⟨by decide, by decide⟩

/-- Witness for C3 (amended) on the two-row table: labels are the observed
ones and the unobserved rectangle cell holds 0. -/
theorem cells_are_label_rectangle_witness :
    ∃ pt, create_pivot_table dfR "a" "b" "Count" none none none none = some pt ∧
      pt.rows = ((observedPairs (numS [some 1, some 2]) (numS [some 10, some 20])).map
        Prod.fst).toFinset ∧
      pt.cell (Label.num 1) (Label.num 20) = 0 := by
  have h := cells_are_label_rectangle dfR "a" "b" "Count" none none none none
    (numS [some 1, some 2]) (numS [some 10, some 20]) _ rfl rfl rfl
  exact ⟨_, rfl, h.1, h.2.2.2 (Label.num 1) (Label.num 20) (by decide)⟩

/-- C7 (confirmed): a non-empty Retention Rate cell is the mean of the
0/1-valued `is_retained` column over the cell's rows, rounded to 3 decimal
places and then multiplied by 100. -/
theorem retention_rate_cell (df : List Row) (x y : String)
    (xbt ybt xcr ycr : Option String) (xd yd : BSeries) (r c : Label)
    (hx : apply_bucketing (df.map (fun t => t.xval)) x xbt xcr = some xd)
    (hy : apply_bucketing (df.map (fun t => t.yval)) y ybt ycr = some yd)
    (hne : cellGroup (observedTriples xd yd
      (df.map (fun t => if t.is_retained then (1 : ℚ) else 0))) r c ≠ []) :
    ∃ pt, create_pivot_table df x y "Retention Rate" xbt ybt xcr ycr = some pt ∧
      pt.cell r c =
        roundTo 3
          ((cellGroup (observedTriples xd yd
              (df.map (fun t => if t.is_retained then (1 : ℚ) else 0))) r c).sum /
            ((cellGroup (observedTriples xd yd
              (df.map (fun t => if t.is_retained then (1 : ℚ) else 0))) r c).length : ℚ)) *
          100 := by
  rw [create_pivot_table_eq df x y "Retention Rate" xbt ybt xcr ycr xd yd hx hy]
  rw [if_neg (by decide), if_neg (by decide), if_neg (by decide), if_pos rfl]
  refine ⟨_, rfl, ?_⟩
  show (crosstabAgg xd yd _ AggKind.mean (some 3)).cell r c * 100 = _
  simp only [crosstabAgg]
  rw [if_neg (by simpa [List.isEmpty_iff] using hne)]

/-- Table of four rows in one cell: `is_retained` is true, true, true,
false. -/
def dfRet : List Row :=
  [⟨some 1, some 1, 0, 0, true, 0, 0⟩, ⟨some 1, some 1, 0, 0, true, 0, 0⟩,
   ⟨some 1, some 1, 0, 0, true, 0, 0⟩, ⟨some 1, some 1, 0, 0, false, 0, 0⟩]

/-- Witness for C7: the `{true, true, true, false}` cell evaluates to
exactly 75.0. -/
theorem retention_rate_cell_witness :
    ∃ pt, create_pivot_table dfRet "a" "b" "Retention Rate" none none none none = some pt ∧
      pt.cell (Label.num 1) (Label.num 1) = 75 := by
  obtain ⟨pt, h1, h2⟩ := retention_rate_cell dfRet "a" "b" none none none none
    (numS [some 1, some 1, some 1, some 1]) (numS [some 1, some 1, some 1, some 1])
    (Label.num 1) (Label.num 1) rfl rfl (by decide)
  refine ⟨pt, h1, ?_⟩
  rw [h2]
  have hg : cellGroup (observedTriples (numS [some 1, some 1, some 1, some 1])
      (numS [some 1, some 1, some 1, some 1])
      (dfRet.map (fun t => if t.is_retained then (1 : ℚ) else 0))) (Label.num 1)
      (Label.num 1) = [1, 1, 1, 0] := by decide
  rw [hg]
  norm_num [roundTo, roundHalfEven]
